import Mathlib

/-!
Verification of the Sakkara Stats blood-glucose logging application
(src/app.py) against its natural-language specification.

The Flask/SQLAlchemy application is shallowly embedded: database tables
become lists of records, queries become list filters and sorts, and the
request handlers become pure functions from the store (and the acting
user) to a result and an updated store.  Dates and creation timestamps
are modelled as natural numbers (only their ordering matters to the
code); sugar values are integers as in the schema; averages are exact
rationals (Python float rounding artefacts on ties are not modelled,
and no claim depends on them).
-/

namespace SakkaraStats

/-- User row, mirroring the SQLAlchemy model at src/app.py lines 36-47.
The column defaults (role, is_active and the four reference-range
integers) are applied by the constructors below exactly where the source
omits the field. -/
structure User where
  id : Nat
  email : String
  name : Option String
  password_hash : String
  role : String
  is_active : Bool
  before_food_min : Int
  before_food_max : Int
  after_food_min : Int
  after_food_max : Int
deriving DecidableEq

/-- Reading row, mirroring the SQLAlchemy model at src/app.py lines 49-57.
The date and the creation timestamp are modelled as naturals (the code
only compares them). -/
structure Reading where
  id : Nat
  user_id : Nat
  date : Nat
  time_of_day : String
  meal_relation : String
  sugar_value : Int
  food_eaten : String
  created_at : Nat
deriving DecidableEq

/-! ## Statistics aggregation (src/app.py lines 131-158 and 240-261) -/

/-- Python round(x, 1) on an exact rational: 10*x is rounded to the
nearest integer, ties to even as Python's round does, then divided by
10.  Used at src/app.py lines 153, 156, 157, 258, 259, 260. -/
def pyRound1 (q : Rat) : Rat :=
  let m : Int := Int.floor (10 * q)
  let f : Rat := 10 * q - (m : Rat)
  let r : Int :=
    if f < 1/2 then m
    else if 1/2 < f then m + 1
    else if m % 2 = 0 then m else m + 1
  (r : Rat) / 10

/-- Python's builtin min of a nonempty list of integers (src/app.py line
135); the empty case returns 0 and is never reached by the source, which
only calls min under a nonemptiness guard. -/
def pyMin : List Int → Int
  | [] => 0
  | x :: xs => xs.foldl min x

/-- Python's builtin max of a nonempty list of integers (src/app.py line
136); the empty case returns 0 and is never reached by the source. -/
def pyMax : List Int → Int
  | [] => 0
  | x :: xs => xs.foldl max x

/-- The mean of a list of integer values as the specification describes
it (spec section 4.3): 0 if the list is empty, otherwise the sum divided
by the length.  This is the spec-side definition, to be compared with
the statistics computed by the embedded handlers. -/
def specMean (xs : List Int) : Rat :=
  if xs = [] then 0 else (xs.sum : Rat) / (xs.length : Rat)

/-- The stats dictionary built by the user dashboard handler
(src/app.py lines 151-158). -/
structure Stats where
  total_readings : Nat
  avg_sugar : Rat
  min_sugar : Int
  max_sugar : Int
  before_avg : Rat
  after_avg : Rat
deriving DecidableEq

/-- The stats computation of the dashboard handler, src/app.py lines
131-158: under the nonemptiness guard it computes total, mean, min, max
and the two partition means (each guarded against an empty partition by
a conditional expression); in the empty case every number is set to 0.
Rounding to one decimal place is applied when the dictionary is built,
exactly as at lines 151-158. -/
def dashboardStats (all_readings : List Reading) : Stats :=
  if all_readings ≠ [] then
    let total_readings := all_readings.length
    let avg_sugar : Rat :=
      ((all_readings.map (fun r => r.sugar_value)).sum : Rat) / (total_readings : Rat)
    let min_sugar := pyMin (all_readings.map (fun r => r.sugar_value))
    let max_sugar := pyMax (all_readings.map (fun r => r.sugar_value))
    let before_food_readings := all_readings.filter (fun r => r.meal_relation == "Before Food")
    let after_food_readings := all_readings.filter (fun r => r.meal_relation == "After Food")
    let before_avg : Rat :=
      if before_food_readings ≠ [] then
        ((before_food_readings.map (fun r => r.sugar_value)).sum : Rat)
          / (before_food_readings.length : Rat)
      else 0
    let after_avg : Rat :=
      if after_food_readings ≠ [] then
        ((after_food_readings.map (fun r => r.sugar_value)).sum : Rat)
          / (after_food_readings.length : Rat)
      else 0
    { total_readings := total_readings, avg_sugar := pyRound1 avg_sugar,
      min_sugar := min_sugar, max_sugar := max_sugar,
      before_avg := pyRound1 before_avg, after_avg := pyRound1 after_avg }
  else
    { total_readings := 0, avg_sugar := pyRound1 0, min_sugar := 0, max_sugar := 0,
      before_avg := pyRound1 0, after_avg := pyRound1 0 }

/-- The stats dictionary built by the admin dashboard handler
(src/app.py lines 254-261). -/
structure AdminStats where
  total_users : Nat
  total_readings : Nat
  active_users : Nat
  avg_sugar : Rat
  before_avg : Rat
  after_avg : Rat
deriving DecidableEq

/-- The stats computation of the admin dashboard handler, src/app.py
lines 235-261: global counts over users and readings, and the global
mean and partition means, each guarded against emptiness by a
conditional expression. -/
def adminDashboardStats (users : List User) (all_readings : List Reading) : AdminStats :=
  let total_users := users.length
  let total_readings := all_readings.length
  let active_users := (users.filter (fun u => u.is_active)).length
  let avg_sugar : Rat :=
    if all_readings ≠ [] then
      ((all_readings.map (fun r => r.sugar_value)).sum : Rat) / (all_readings.length : Rat)
    else 0
  let before_food_readings := all_readings.filter (fun r => r.meal_relation == "Before Food")
  let after_food_readings := all_readings.filter (fun r => r.meal_relation == "After Food")
  let before_avg : Rat :=
    if before_food_readings ≠ [] then
      ((before_food_readings.map (fun r => r.sugar_value)).sum : Rat)
        / (before_food_readings.length : Rat)
    else 0
  let after_avg : Rat :=
    if after_food_readings ≠ [] then
      ((after_food_readings.map (fun r => r.sugar_value)).sum : Rat)
        / (after_food_readings.length : Rat)
    else 0
  { total_users := total_users, total_readings := total_readings,
    active_users := active_users, avg_sugar := pyRound1 avg_sugar,
    before_avg := pyRound1 before_avg, after_avg := pyRound1 after_avg }

/-! ## Password hashing (external library, modelled) -/

/-- Modelled from the spec: werkzeug.security.generate_password_hash, an
external library function called at src/app.py lines 105, 213, 307 and
382.  The spec requires only that the stored credential is a salted hash
and never the raw password; the function is abstracted as an injective
tagging function whose output never equals its input. -/
def generate_password_hash (password : String) : String :=
  "pbkdf2:sha256$" ++ password

/-- Modelled from the spec: werkzeug.security.check_password_hash (called
at src/app.py line 80); it verifies exactly the strings produced by
generate_password_hash. -/
def check_password_hash (stored password : String) : Bool :=
  stored == generate_password_hash password

theorem generate_password_hash_ne (password : String) :
    generate_password_hash password ≠ password := by
  intro h
  have hlen := congrArg String.length h
  rw [generate_password_hash, String.length_append,
      show ("pbkdf2:sha256$" : String).length = 14 from rfl] at hlen
  omega

/-! ## Signup and login (src/app.py lines 73-112), user toggling (284-296) -/

/-- Outcome of the signup handler. -/
inductive SignupResult
  | duplicateEmail
  | created
deriving DecidableEq

/-- The user created by signup at src/app.py lines 103-106: only email
and password hash are given; role "user", is_active true, no name and
the four reference-range integers come from the column defaults at
lines 39-46. -/
def signupUser (fresh_id : Nat) (email password : String) : User :=
  { id := fresh_id, email := email, name := none,
    password_hash := generate_password_hash password,
    role := "user", is_active := true,
    before_food_min := 80, before_food_max := 130,
    after_food_min := 90, after_food_max := 180 }

/-- The signup handler, src/app.py lines 94-112: if a user with the
given email exists the store is unchanged and a duplicate-email error is
flashed; otherwise exactly one new user row is inserted. -/
def signup (store : List User) (fresh_id : Nat) (email password : String) :
    SignupResult × List User :=
  if (store.find? (fun u => u.email == email)).isSome then
    (SignupResult.duplicateEmail, store)
  else
    (SignupResult.created, store ++ [signupUser fresh_id email password])

/-- Outcome of the login handler. -/
inductive LoginResult
  | invalidCredentials
  | accountDisabled
  | success (user_id : Nat)
deriving DecidableEq

/-- The login handler, src/app.py lines 73-92: the first user with the
given email is looked up; a missing user or a failing hash check flashes
invalid credentials, an inactive user flashes the deactivation message,
and otherwise the session is bound to the user (login_user(user)),
modelled as success carrying the user id. -/
def login (store : List User) (email password : String) : LoginResult :=
  match store.find? (fun u => u.email == email) with
  | some user =>
    if check_password_hash user.password_hash password then
      if user.is_active then LoginResult.success user.id
      else LoginResult.accountDisabled
    else LoginResult.invalidCredentials
  | none => LoginResult.invalidCredentials

/-- The admin toggle handler, src/app.py lines 284-296: the user with
the given id has the is_active flag flipped; every other row is left
unchanged (when no row has the id the source responds 404 and the store
is unchanged, which the map also yields). -/
def toggle_user (store : List User) (user_id : Nat) : List User :=
  store.map (fun u =>
    if u.id == user_id then
      { u with is_active := !u.is_active }
    else u)

/-! ## Reading deletion (src/app.py lines 313-330) -/

/-- Outcome of the delete handler. -/
inductive DeleteResult
  | notFound
  | unauthorized
  | deleted
deriving DecidableEq

/-- The delete handler, src/app.py lines 313-330: get_or_404 responds
not-found when no reading has the id; a non-admin actor who does not own
the reading is turned away with an unauthorized flash and no change;
otherwise the fetched row is deleted (modelled by eraseP, which removes
the first row with the id: with unique primary keys, exactly that
row). -/
def delete_reading (store : List Reading) (actor : User) (reading_id : Nat) :
    DeleteResult × List Reading :=
  match store.find? (fun r => r.id == reading_id) with
  | none => (DeleteResult.notFound, store)
  | some reading =>
    if actor.role ≠ "admin" ∧ reading.user_id ≠ actor.id then
      (DeleteResult.unauthorized, store)
    else
      (DeleteResult.deleted, store.eraseP (fun r => r.id == reading_id))

/-! ## Helper lemmas on find? and eraseP -/

theorem find?_eq_some_of_unique {α : Type} (p : α → Bool) (l : List α) (a : α)
    (ha : a ∈ l) (hpa : p a = true)
    (huniq : ∀ b ∈ l, p b = true → b = a) :
    l.find? p = some a := by
  induction l with
  | nil => cases ha
  | cons x xs ih =>
    by_cases hx : p x = true
    · have hxa : x = a := huniq x (List.mem_cons_self x xs) hx
      subst hxa
      exact List.find?_cons_of_pos _ hx
    · rw [List.find?_cons_of_neg _ (by simpa using hx)]
      rcases List.mem_cons.1 ha with h | h
      · subst h
        exact absurd hpa hx
      · exact ih h (fun b hb hpb => huniq b (List.mem_cons_of_mem _ hb) hpb)

theorem eraseP_eq_filter_not {α : Type} (p : α → Bool) :
    ∀ l : List α, l.countP p ≤ 1 → l.eraseP p = l.filter (fun a => !(p a)) := by
  intro l
  induction l with
  | nil => intro _; rfl
  | cons x xs ih =>
    intro hc
    by_cases hx : p x = true
    · rw [List.eraseP_cons_of_pos hx, List.filter_cons_of_neg (by simp [hx])]
      have hzero : xs.countP p = 0 := by
        rw [List.countP_cons_of_pos _ _ hx] at hc
        omega
      have hall : ∀ a ∈ xs, ¬ p a = true := by
        intro a hax hpa
        have := List.countP_pos_iff.2 ⟨a, hax, hpa⟩
        omega
      symm
      rw [List.filter_eq_self]
      intro a hax
      simpa using hall a hax
    · rw [List.eraseP_cons_of_neg (by simpa using hx),
          List.filter_cons_of_pos (by simp [hx])]
      have hc2 : xs.countP p ≤ 1 := by
        rw [List.countP_cons_of_neg _ _ (by simpa using hx)] at hc
        omega
      rw [ih hc2]

/-! ## Chart data export (src/app.py lines 332-372) -/

/-- One point of the chart payload (src/app.py lines 347-354); the x
field keeps the reading's date (the source only formats it as a
YYYY-MM-DD string for display). -/
structure DataPoint where
  x : Nat
  y : Int
  food : String
  time : String
  user_email : Option String
deriving DecidableEq

/-- Date-ascending comparator of the chart queries
(order_by(Reading.date.asc()), src/app.py lines 337 and 340-341). -/
def dateAsc (a b : Reading) : Bool := a.date ≤ b.date

/-- Email of the user owning a reading: the reading.user relationship
traversal at src/app.py line 352, a lookup of the owner row by id. -/
def lookupEmail (users : List User) (user_id : Nat) : Option String :=
  (users.find? (fun u => u.id == user_id)).map (fun u => u.email)

/-- The data point built for one reading at src/app.py lines 347-354:
the owner email is attached only when the actor is an admin, else the
field is None. -/
def chartPoint (actor : User) (users : List User) (r : Reading) : DataPoint :=
  { x := r.date, y := r.sugar_value, food := r.food_eaten, time := r.time_of_day,
    user_email := if actor.role = "admin" then lookupEmail users r.user_id else none }

/-- The readings the chart query returns before sorting: an admin sees
every reading that joins to a user row (Reading.query.join(User),
src/app.py line 337), a regular user only the readings they own
(line 340). -/
def visibleReadings (actor : User) (users : List User) (store : List Reading) :
    List Reading :=
  if actor.role = "admin" then
    store.filter (fun r => (users.find? (fun u => u.id == r.user_id)).isSome)
  else
    store.filter (fun r => r.user_id == actor.id)

/-- The chart payload (src/app.py lines 361-372). -/
structure ChartData where
  before_food : List DataPoint
  after_food : List DataPoint
  before_food_range : Int × Int
  after_food_range : Int × Int
deriving DecidableEq

/-- The chart_data handler, src/app.py lines 332-372: the visible
readings ordered by date ascending pass through the two-way test at
lines 356-359 (meal_relation exactly "Before Food" goes to the first
sequence, anything else to the second) and become data points; the
actor's four reference-range numbers are attached. -/
def chart_data (actor : User) (users : List User) (store : List Reading) : ChartData :=
  let readings := (visibleReadings actor users store).mergeSort dateAsc
  { before_food := (readings.filter (fun r => r.meal_relation == "Before Food")).map
      (chartPoint actor users),
    after_food := (readings.filter (fun r => !(r.meal_relation == "Before Food"))).map
      (chartPoint actor users),
    before_food_range := (actor.before_food_min, actor.before_food_max),
    after_food_range := (actor.after_food_min, actor.after_food_max) }

theorem mem_chart_data (actor : User) (users : List User) (store : List Reading)
    (p : DataPoint)
    (hp : p ∈ (chart_data actor users store).before_food
        ++ (chart_data actor users store).after_food) :
    ∃ r ∈ visibleReadings actor users store, p = chartPoint actor users r := by
  rcases List.mem_append.1 hp with h | h <;>
  · rcases List.mem_map.1 h with ⟨r, hr, rfl⟩
    exact ⟨r, List.mem_mergeSort.1 (List.mem_filter.1 hr).1, rfl⟩

/-! ## Concrete users used by the witnesses -/

/-- Example email address. -/
def exEmailA : String := "alice@example.com"

/-- Second example email address. -/
def exEmailB : String := "bob@example.com"

/-- Example password. -/
def exPwA : String := "correct-horse"

/-- Second example password. -/
def exPwB : String := "battery-staple"

/-- A regular user as signup creates it, id 1. -/
def exUserA : User := signupUser 1 exEmailA exPwA

/-- A second regular user, id 2. -/
def exUserB : User := signupUser 2 exEmailB exPwB

/-- An admin user, id 9. -/
def exAdmin : User :=
  { id := 9, email := "admin@example.com", name := none,
    password_hash := generate_password_hash exPwB,
    role := "admin", is_active := true,
    before_food_min := 80, before_food_max := 130,
    after_food_min := 90, after_food_max := 180 }

/-! ## Concrete readings used by the worked examples -/

/-- Example reading: sugar 100, Before Food. -/
def exBefore100 : Reading :=
  { id := 1, user_id := 1, date := 1, time_of_day := "Morning",
    meal_relation := "Before Food", sugar_value := 100, food_eaten := "",
    created_at := 1 }

/-- Example reading: sugar 120, Before Food. -/
def exBefore120 : Reading :=
  { id := 2, user_id := 1, date := 2, time_of_day := "Evening",
    meal_relation := "Before Food", sugar_value := 120, food_eaten := "",
    created_at := 2 }

/-- Example reading: sugar 200, After Food. -/
def exAfter200 : Reading :=
  { id := 3, user_id := 1, date := 3, time_of_day := "Night",
    meal_relation := "After Food", sugar_value := 200, food_eaten := "",
    created_at := 3 }

/-! ## Lemmas on the statistics computation -/

theorem dashboard_before_avg (S : List Reading) :
    (dashboardStats S).before_avg
      = pyRound1 (specMean
          ((S.filter (fun r => r.meal_relation == "Before Food")).map
            (fun r => r.sugar_value))) := by
  by_cases hS : S = []
  · subst hS
    simp [dashboardStats, specMean]
  · rw [dashboardStats, if_pos hS]
    by_cases hb : S.filter (fun r => r.meal_relation == "Before Food") = []
    · simp [hb, specMean]
    · simp [hb, specMean, List.length_map, Function.comp_def]

theorem dashboard_after_avg (S : List Reading) :
    (dashboardStats S).after_avg
      = pyRound1 (specMean
          ((S.filter (fun r => r.meal_relation == "After Food")).map
            (fun r => r.sugar_value))) := by
  by_cases hS : S = []
  · subst hS
    simp [dashboardStats, specMean]
  · rw [dashboardStats, if_pos hS]
    by_cases hb : S.filter (fun r => r.meal_relation == "After Food") = []
    · simp [hb, specMean]
    · simp [hb, specMean, List.length_map, Function.comp_def]

/-- C1: the partition means of the dashboard statistics are computed
independently over exactly the readings whose meal_relation equals
"Before Food" (resp. "After Food"); a reading with any other
meal_relation value contributes to neither partition mean; an empty
partition yields mean 0; each mean is rounded to one decimal place; and
on the example [100 Before, 120 Before, 200 After] the stats are
before_avg 110, after_avg 200, total 3, min 100, max 200. -/
theorem C1_partition_means :
    (∀ S : List Reading,
        (dashboardStats S).before_avg
          = pyRound1 (specMean
              ((S.filter (fun r => r.meal_relation == "Before Food")).map
                (fun r => r.sugar_value)))
      ∧ (dashboardStats S).after_avg
          = pyRound1 (specMean
              ((S.filter (fun r => r.meal_relation == "After Food")).map
                (fun r => r.sugar_value))))
    ∧ (∀ (r : Reading) (S : List Reading),
        r.meal_relation ≠ "Before Food" → r.meal_relation ≠ "After Food" →
          (dashboardStats (r :: S)).before_avg = (dashboardStats S).before_avg
        ∧ (dashboardStats (r :: S)).after_avg = (dashboardStats S).after_avg)
    ∧ pyRound1 (specMean []) = 0
    ∧ dashboardStats [exBefore100, exBefore120, exAfter200]
        = { total_readings := 3, avg_sugar := 140, min_sugar := 100,
            max_sugar := 200, before_avg := 110, after_avg := 200 } := by
  refine ⟨fun S => ⟨dashboard_before_avg S, dashboard_after_avg S⟩, ?_,
    by norm_num [pyRound1, specMean],
    by simp [dashboardStats, exBefore100, exBefore120, exAfter200, pyMin, pyMax]
       norm_num [pyRound1]⟩
  intro r S hB hA
  have hfb : (r :: S).filter (fun x => x.meal_relation == "Before Food")
      = S.filter (fun x => x.meal_relation == "Before Food") := by
    simp [List.filter_cons, hB]
  have hfa : (r :: S).filter (fun x => x.meal_relation == "After Food")
      = S.filter (fun x => x.meal_relation == "After Food") := by
    simp [List.filter_cons, hA]
  constructor
  · rw [dashboard_before_avg, dashboard_before_avg, hfb]
  · rw [dashboard_after_avg, dashboard_after_avg, hfa]

/-- Witness for C1: a reading with meal_relation "Random" changes
neither partition mean. -/
theorem C1_partition_means_witness :
    (dashboardStats
        [{ id := 4, user_id := 1, date := 4, time_of_day := "Noon",
           meal_relation := "Random", sugar_value := 500, food_eaten := "",
           created_at := 4 }, exBefore100]).before_avg
      = (dashboardStats [exBefore100]).before_avg := by
  exact (C1_partition_means.2.1
    { id := 4, user_id := 1, date := 4, time_of_day := "Noon",
      meal_relation := "Random", sugar_value := 500, food_eaten := "",
      created_at := 4 }
    [exBefore100] (by decide) (by decide)).1

/-- C6: the statistics are total on the empty input: zero readings give
total 0, avg 0, min 0, max 0, before_avg 0 and after_avg 0, on the user
dashboard as well as on the admin dashboard (whose reading-derived
numbers are all 0 whatever the user table holds); every division in the
source stands under a nonemptiness guard, modelled by the conditionals
of the embedded definitions, so no division by zero is performed. -/
theorem C6_empty_input_safe :
    dashboardStats []
        = { total_readings := 0, avg_sugar := 0, min_sugar := 0,
            max_sugar := 0, before_avg := 0, after_avg := 0 }
    ∧ ∀ users : List User,
        (adminDashboardStats users []).total_readings = 0
      ∧ (adminDashboardStats users []).avg_sugar = 0
      ∧ (adminDashboardStats users []).before_avg = 0
      ∧ (adminDashboardStats users []).after_avg = 0 := by
  refine ⟨?_, fun users => ?_⟩
  · simp [dashboardStats, Stats.mk.injEq]
    norm_num [pyRound1]
  · refine ⟨rfl, ?_, ?_, ?_⟩ <;> simp [adminDashboardStats] <;> norm_num [pyRound1]

/-- C4: signup with an email already present in the store always fails
with DuplicateEmail and leaves the set of user rows unchanged; with a
fresh email it creates exactly one new user whose role is "user", whose
active flag is true and whose stored credential is the hash of the
password, never the raw password. -/
theorem C4_signup (store : List User) (fresh_id : Nat) (email password : String) :
    ((∃ u ∈ store, u.email = email) →
        signup store fresh_id email password = (SignupResult.duplicateEmail, store))
    ∧ ((∀ u ∈ store, u.email ≠ email) →
        signup store fresh_id email password
            = (SignupResult.created, store ++ [signupUser fresh_id email password])
        ∧ (signup store fresh_id email password).2.length = store.length + 1
        ∧ (signupUser fresh_id email password).role = "user"
        ∧ (signupUser fresh_id email password).is_active = true
        ∧ (signupUser fresh_id email password).password_hash
            = generate_password_hash password
        ∧ (signupUser fresh_id email password).password_hash ≠ password) := by
  constructor
  · rintro ⟨u, hu, he⟩
    have hfind : (store.find? (fun u => u.email == email)).isSome := by
      rw [List.find?_isSome]
      exact ⟨u, hu, by simp [he]⟩
    simp [signup, hfind]
  · intro hall
    have hfind : store.find? (fun u => u.email == email) = none := by
      rw [List.find?_eq_none]
      intro u hu
      simp [hall u hu]
    refine ⟨by simp [signup, hfind], by simp [signup, hfind], rfl, rfl, rfl,
      generate_password_hash_ne password⟩

/-- Witness for C4: a duplicate email is rejected with the store kept,
and signup into the empty store creates exactly the one new row. -/
theorem C4_signup_witness :
    signup [exUserA] 2 exEmailA exPwB = (SignupResult.duplicateEmail, [exUserA])
    ∧ (signup [] 1 exEmailA exPwA).2 = [signupUser 1 exEmailA exPwA] := by
  constructor
  · exact (C4_signup [exUserA] 2 exEmailA exPwB).1 ⟨exUserA, List.mem_singleton.2 rfl, rfl⟩
  · exact congrArg Prod.snd
      ((C4_signup [] 1 exEmailA exPwA).2 (by intro u hu; cases hu)).1

/-- C5: login fails with InvalidCredentials when no user has the email
or the password does not verify against the stored hash; a matching but
deactivated user yields AccountDisabled even on a correct password; only
an active user with a verifying password yields a session bound to that
user's id; and after the admin toggle deactivates the user, the same
correct credentials yield AccountDisabled. -/
theorem C5_login (store : List User) (email password : String) :
    ((∀ u ∈ store, u.email ≠ email) →
        login store email password = LoginResult.invalidCredentials)
    ∧ (∀ u ∈ store, u.email = email → (∀ v ∈ store, v.email = email → v = u) →
        (check_password_hash u.password_hash password = false →
            login store email password = LoginResult.invalidCredentials)
        ∧ (check_password_hash u.password_hash password = true → u.is_active = false →
            login store email password = LoginResult.accountDisabled)
        ∧ (check_password_hash u.password_hash password = true → u.is_active = true →
            login store email password = LoginResult.success u.id)
        ∧ (check_password_hash u.password_hash password = true → u.is_active = true →
            login (toggle_user store u.id) email password
              = LoginResult.accountDisabled)) := by
  constructor
  · intro hall
    have hfind : store.find? (fun u => u.email == email) = none := by
      rw [List.find?_eq_none]
      intro u hu
      simp [hall u hu]
    simp [login, hfind]
  · intro u hu he huniq
    have hfind : store.find? (fun v => v.email == email) = some u :=
      find?_eq_some_of_unique _ store u hu (by simp [he])
        (fun b hb hpb => huniq b hb (by simpa using hpb))
    have hcomp : ((fun v : User => v.email == email) ∘ fun v : User =>
          if v.id == u.id then { v with is_active := !v.is_active } else v)
        = (fun v : User => v.email == email) := by
      funext v
      by_cases h : v.id = u.id <;> simp [h]
    refine ⟨?_, ?_, ?_, ?_⟩
    · intro hc
      simp [login, hfind, hc]
    · intro hc hia
      simp [login, hfind, hc, hia]
    · intro hc hia
      simp [login, hfind, hc, hia]
    · intro hc hia
      have hfind2 : (toggle_user store u.id).find? (fun v => v.email == email)
          = some { u with is_active := !u.is_active } := by
        rw [toggle_user, List.find?_map, hcomp, hfind]
        simp
      simp [login, hfind2, check_password_hash] at *
      simp [hc, hia]

/-- Witness for C5: the active example user logs in successfully, and
after being toggled inactive the same credentials are refused with the
disabled-account message. -/
theorem C5_login_witness :
    login [exUserA] exEmailA exPwA = LoginResult.success 1
    ∧ login (toggle_user [exUserA] 1) exEmailA exPwA = LoginResult.accountDisabled := by
  have h := (C5_login [exUserA] exEmailA exPwA).2 exUserA (List.mem_singleton.2 rfl) rfl
    (fun v hv _ => by simpa using hv)
  exact ⟨h.2.2.1 rfl rfl, h.2.2.2 rfl rfl⟩

/-- C2: delete_reading fails with NotFound when no reading has the id;
when the actor is neither an admin nor the owner it fails with
Unauthorized and the store is unchanged; otherwise the reading is
removed permanently: assuming unique primary keys, the resulting store
is exactly the original minus every row with that id, and every other
row survives. -/
theorem C2_delete_reading (store : List Reading) (actor : User) (rid : Nat) :
    ((∀ r ∈ store, r.id ≠ rid) →
        delete_reading store actor rid = (DeleteResult.notFound, store))
    ∧ ((store.map (fun x => x.id)).Nodup →
        ∀ r ∈ store, r.id = rid →
          ((actor.role ≠ "admin" → r.user_id ≠ actor.id →
              delete_reading store actor rid = (DeleteResult.unauthorized, store))
          ∧ ((actor.role = "admin" ∨ r.user_id = actor.id) →
              delete_reading store actor rid
                  = (DeleteResult.deleted, store.filter (fun x => !(x.id == rid)))
              ∧ (∀ x ∈ (delete_reading store actor rid).2, x.id ≠ rid)
              ∧ (∀ x ∈ store, x.id ≠ rid → x ∈ (delete_reading store actor rid).2)))) := by
  constructor
  · intro hall
    have hfind : store.find? (fun r => r.id == rid) = none := by
      rw [List.find?_eq_none]
      intro r hr
      simp [hall r hr]
    simp [delete_reading, hfind]
  · intro hnodup r hr hrid
    have hinj := List.inj_on_of_nodup_map hnodup
    have hfind : store.find? (fun x => x.id == rid) = some r :=
      find?_eq_some_of_unique _ store r hr (by simp [hrid])
        (fun b hb hpb => hinj hb hr (by simpa [hrid] using hpb))
    constructor
    · intro hrole hown
      have hcond : actor.role ≠ "admin" ∧ r.user_id ≠ actor.id := ⟨hrole, hown⟩
      simp [delete_reading, hfind, hcond]
    · intro hauth
      have hcond : ¬(actor.role ≠ "admin" ∧ r.user_id ≠ actor.id) := by
        tauto
      have hcount : store.countP (fun x => x.id == rid) ≤ 1 := by
        have h1 : (store.map (fun x => x.id)).count rid ≤ 1 :=
          List.nodup_iff_count_le_one.1 hnodup rid
        have h2 : (store.map (fun x => x.id)).count rid
            = store.countP (fun x => x.id == rid) := by
          rw [List.count, List.countP_map]
          simp [Function.comp_def]
        omega
      have heq : delete_reading store actor rid
          = (DeleteResult.deleted, store.filter (fun x => !(x.id == rid))) := by
        rw [← eraseP_eq_filter_not _ store hcount]
        simp [delete_reading, hfind, hcond]
      refine ⟨heq, ?_, ?_⟩
      · intro x hx
        rw [heq] at hx
        have := List.of_mem_filter hx
        simpa using this
      · intro x hx hxid
        rw [heq]
        exact List.mem_filter.2 ⟨hx, by simpa using hxid⟩

/-- Witness for C2: a non-owner non-admin actor is refused with the
store kept, and the admin actor deletes the only row with id 1. -/
theorem C2_delete_reading_witness :
    delete_reading [exBefore100] exUserB 1 = (DeleteResult.unauthorized, [exBefore100])
    ∧ (delete_reading [exBefore100] exAdmin 1).2 = [] := by
  have h := (C2_delete_reading [exBefore100] exUserB 1).2 (by decide) exBefore100
    (List.mem_singleton.2 rfl) rfl
  have h2 := (C2_delete_reading [exBefore100] exAdmin 1).2 (by decide) exBefore100
    (List.mem_singleton.2 rfl) rfl
  exact ⟨h.1 (by decide) (by decide), congrArg Prod.snd (h2.2 (Or.inl rfl)).1⟩

/-- Example reading with an unknown meal_relation value. -/
def exRandom : Reading :=
  { id := 7, user_id := 1, date := 9, time_of_day := "Noon",
    meal_relation := "Random", sugar_value := 150, food_eaten := "",
    created_at := 9 }

/-- C3: for every actor whose role is not admin, every data point of the
chart_data response, in the before_food as well as the after_food
sequence, has its owner-email field equal to None, including points for
the actor's own readings; for an admin actor every data point carries
the email of a user row owning the generating reading. -/
theorem C3_chart_owner_email (actor : User) (users : List User) (store : List Reading) :
    (actor.role ≠ "admin" →
        ∀ p ∈ (chart_data actor users store).before_food
            ++ (chart_data actor users store).after_food,
          p.user_email = none)
    ∧ (actor.role = "admin" →
        ∀ p ∈ (chart_data actor users store).before_food
            ++ (chart_data actor users store).after_food,
          ∃ r ∈ store, ∃ u ∈ users, u.id = r.user_id
            ∧ p = chartPoint actor users r
            ∧ p.user_email = some u.email) := by
  constructor
  · intro hrole p hp
    obtain ⟨r, hrv, rfl⟩ := mem_chart_data actor users store p hp
    simp [chartPoint, hrole]
  · intro hrole p hp
    obtain ⟨r, hrv, rfl⟩ := mem_chart_data actor users store p hp
    rw [visibleReadings, if_pos hrole] at hrv
    obtain ⟨hrs, hsome⟩ := List.mem_filter.1 hrv
    obtain ⟨u, hu⟩ := Option.isSome_iff_exists.1 hsome
    refine ⟨r, hrs, u, List.mem_of_find?_eq_some hu, ?_, rfl, ?_⟩
    · simpa using List.find?_some hu
    · simp [chartPoint, hrole, lookupEmail, hu]

/-- Witness for C3: a regular user requesting their own reading gets a
data point whose owner-email field is None. -/
theorem C3_chart_owner_email_witness :
    (chartPoint exUserA [] exBefore100).user_email = none := by
  refine (C3_chart_owner_email exUserA [] [exBefore100]).1 (by decide)
    (chartPoint exUserA [] exBefore100) ?_
  apply List.mem_append_left
  simp [chart_data, visibleReadings, exUserA, signupUser, exBefore100,
    List.mergeSort_singleton]

theorem length_filter_partition {α : Type} (q : α → Bool) (l : List α) :
    (l.filter q).length + (l.filter (fun a => !(q a))).length = l.length := by
  induction l with
  | nil => rfl
  | cons x xs ih =>
    by_cases h : q x = true <;> simp [List.filter_cons, h] <;> omega

/-- C10: chart_data classifies every visible reading whose meal_relation
is not exactly "Before Food" into the after_food sequence (an unknown
meal_relation is not excluded), every "Before Food" reading into the
before_food sequence, and the two sequences together cover all of the
actor's visible readings. -/
theorem C10_unknown_meal_goes_after (actor : User) (users : List User)
    (store : List Reading) :
    ((chart_data actor users store).before_food.length
        + (chart_data actor users store).after_food.length
      = (visibleReadings actor users store).length)
    ∧ (∀ r ∈ visibleReadings actor users store, r.meal_relation ≠ "Before Food" →
        chartPoint actor users r ∈ (chart_data actor users store).after_food)
    ∧ (∀ r ∈ visibleReadings actor users store, r.meal_relation = "Before Food" →
        chartPoint actor users r ∈ (chart_data actor users store).before_food) := by
  refine ⟨?_, ?_, ?_⟩
  · simp only [chart_data, List.length_map]
    rw [length_filter_partition]
    exact List.length_mergeSort _
  · intro r hr hne
    simp only [chart_data]
    exact List.mem_map_of_mem _
      (List.mem_filter.2 ⟨List.mem_mergeSort.2 hr, by simp [hne]⟩)
  · intro r hr heq
    simp only [chart_data]
    exact List.mem_map_of_mem _
      (List.mem_filter.2 ⟨List.mem_mergeSort.2 hr, by simp [heq]⟩)

/-- Witness for C10: a reading tagged "Random" lands in the after_food
sequence of its owner's chart. -/
theorem C10_unknown_meal_goes_after_witness :
    chartPoint exUserA [] exRandom ∈ (chart_data exUserA [] [exRandom]).after_food := by
  refine (C10_unknown_meal_goes_after exUserA [] [exRandom]).2.1 exRandom ?_ (by decide)
  simp [visibleReadings, exUserA, signupUser, exRandom]

/-! ## Reading listings and add_reading (src/app.py lines 126-128,
162-176, 178-186, 274-282) -/

/-- Date-descending, then creation-time-descending comparator of the
history, dashboard and admin listing queries
(order_by(Reading.date.desc(), Reading.created_at.desc()), src/app.py
lines 127-128, 184-185 and 280-281). -/
def readingDesc (a b : Reading) : Bool :=
  b.date < a.date || (a.date == b.date && b.created_at ≤ a.created_at)

/-- The history query, src/app.py lines 184-186: all of one user's
readings, date descending then creation time descending. -/
def list_readings (store : List Reading) (user_id : Nat) : List Reading :=
  (store.filter (fun r => r.user_id == user_id)).mergeSort readingDesc

/-- The dashboard listing, src/app.py lines 127-128: the same query with
limit(10), i.e. the first ten rows of the same order. -/
def dashboardReadings (store : List Reading) (user_id : Nat) : List Reading :=
  (list_readings store user_id).take 10

/-- The admin listing, src/app.py lines 280-282: every reading joined
with its owner row (an inner join on user), in the same order. -/
def manage_readings (users : List User) (store : List Reading) : List Reading :=
  (store.filter
      (fun r => (users.find? (fun u => u.id == r.user_id)).isSome)).mergeSort
    readingDesc

/-- A fresh reading as add_reading builds it at src/app.py lines
165-172: the five form fields (date already parsed, sugar already
coerced to integer), the current user as owner, and the server-clock
creation timestamp. -/
def mkReading (fresh_id user_id : Nat) (date : Nat)
    (time_of_day meal_relation : String) (sugar_value : Int)
    (food_eaten : String) (now : Nat) : Reading :=
  { id := fresh_id, user_id := user_id, date := date,
    time_of_day := time_of_day, meal_relation := meal_relation,
    sugar_value := sugar_value, food_eaten := food_eaten, created_at := now }

/-- The add_reading handler, src/app.py lines 162-176: exactly one row,
owned by the current user, is inserted and committed. -/
def add_reading (store : List Reading) (fresh_id user_id : Nat) (date : Nat)
    (time_of_day meal_relation : String) (sugar_value : Int)
    (food_eaten : String) (now : Nat) : List Reading :=
  store ++ [mkReading fresh_id user_id date time_of_day meal_relation
    sugar_value food_eaten now]

theorem readingDesc_trans (a b c : Reading) :
    readingDesc a b = true → readingDesc b c = true → readingDesc a c = true := by
  simp only [readingDesc, Bool.or_eq_true, Bool.and_eq_true, decide_eq_true_eq,
    beq_iff_eq]
  omega

theorem readingDesc_total (a b : Reading) :
    (readingDesc a b || readingDesc b a) = true := by
  simp only [readingDesc, Bool.or_eq_true, Bool.and_eq_true, decide_eq_true_eq,
    beq_iff_eq]
  omega

/-- C7 (round trip): a reading added via add_reading is returned by the
user's list_readings, with all five input fields and the owner equal to
the inputs; only the id and the creation timestamp are newly
assigned. -/
theorem C7_round_trip (store : List Reading) (fresh_id user_id : Nat) (date : Nat)
    (time_of_day meal_relation : String) (sugar_value : Int)
    (food_eaten : String) (now : Nat) :
    mkReading fresh_id user_id date time_of_day meal_relation sugar_value
        food_eaten now
      ∈ list_readings (add_reading store fresh_id user_id date time_of_day
          meal_relation sugar_value food_eaten now) user_id
    ∧ (mkReading fresh_id user_id date time_of_day meal_relation sugar_value
        food_eaten now).date = date
    ∧ (mkReading fresh_id user_id date time_of_day meal_relation sugar_value
        food_eaten now).time_of_day = time_of_day
    ∧ (mkReading fresh_id user_id date time_of_day meal_relation sugar_value
        food_eaten now).meal_relation = meal_relation
    ∧ (mkReading fresh_id user_id date time_of_day meal_relation sugar_value
        food_eaten now).sugar_value = sugar_value
    ∧ (mkReading fresh_id user_id date time_of_day meal_relation sugar_value
        food_eaten now).food_eaten = food_eaten
    ∧ (mkReading fresh_id user_id date time_of_day meal_relation sugar_value
        food_eaten now).user_id = user_id := by
  refine ⟨?_, rfl, rfl, rfl, rfl, rfl, rfl⟩
  rw [list_readings, List.mem_mergeSort]
  refine List.mem_filter.2 ⟨?_, by simp [mkReading]⟩
  exact List.mem_append_right _ (List.mem_singleton.2 rfl)

/-- Readings used by the C8 counterexample: eleven rows owned by user 1
with pairwise distinct ids and dates. -/
def c8Reading (i : Nat) : Reading :=
  { id := i, user_id := 1, date := i, time_of_day := "Morning",
    meal_relation := "Before Food", sugar_value := 100, food_eaten := "",
    created_at := i }

/-- Store of eleven readings, all owned by user 1. -/
def c8Store : List Reading := (List.range 11).map c8Reading

/-- Counterexample to C8 as stated: the dashboard view does NOT return
all readings owned by the user.  Its query carries limit(10) (src/app.py
line 128), so with eleven owned readings the rendered list has ten
entries and at least one owned reading is missing. -/
theorem C8_counterexample :
    (c8Store.filter (fun r => r.user_id == 1)).length = 11
    ∧ (dashboardReadings c8Store 1).length = 10
    ∧ ¬ (∀ r ∈ c8Store, r.user_id = 1 → r ∈ dashboardReadings c8Store 1) := by
  have hlen : (dashboardReadings c8Store 1).length = 10 := by
    rw [dashboardReadings, List.length_take, list_readings, List.length_mergeSort]
    decide
  refine ⟨by decide, hlen, fun hall => ?_⟩
  have hall1 : ∀ r ∈ c8Store, r.user_id = 1 := by decide
  have hsub : c8Store ⊆ dashboardReadings c8Store 1 := fun r hr =>
    hall r hr (hall1 r hr)
  have hnd : c8Store.Nodup := by decide
  have hle := (List.subperm_of_subset hnd hsub).length_le
  rw [hlen] at hle
  have : c8Store.length = 11 := by decide
  omega

/-- C8 as amended: list_readings returns exactly the readings owned by
the user, sorted by date descending then creation time descending; the
history view shows all of them, while the dashboard view shows only the
first ten in that order; the admin variant returns every reading joined
with its owner, in the same order. -/
theorem C8_list_readings (store : List Reading) (uid : Nat) :
    (∀ r : Reading, r ∈ list_readings store uid ↔ r ∈ store ∧ r.user_id = uid)
    ∧ (list_readings store uid).Pairwise (fun a b => readingDesc a b = true)
    ∧ dashboardReadings store uid = (list_readings store uid).take 10
    ∧ (dashboardReadings store uid).length = min 10 (list_readings store uid).length
    ∧ ∀ users : List User, (∀ r ∈ store, ∃ u ∈ users, u.id = r.user_id) →
        ((∀ r : Reading, r ∈ manage_readings users store ↔ r ∈ store)
        ∧ (manage_readings users store).Pairwise
            (fun a b => readingDesc a b = true)) := by
  refine ⟨?_, ?_, rfl, ?_, ?_⟩
  · intro r
    rw [list_readings, List.mem_mergeSort, List.mem_filter]
    simp
  · exact List.sorted_mergeSort readingDesc_trans readingDesc_total _
  · rw [dashboardReadings, List.length_take]
  · intro users hfk
    have hfilter : store.filter
        (fun r => (users.find? (fun u => u.id == r.user_id)).isSome) = store := by
      rw [List.filter_eq_self]
      intro r hr
      obtain ⟨u, hu, hid⟩ := hfk r hr
      rw [List.find?_isSome]
      exact ⟨u, hu, by simp [hid]⟩
    constructor
    · intro r
      rw [manage_readings, List.mem_mergeSort, hfilter]
    · exact List.sorted_mergeSort readingDesc_trans readingDesc_total _

/-- Witness for C8: with the owner present in the user table, the admin
listing contains the reading. -/
theorem C8_list_readings_witness :
    exBefore100 ∈ manage_readings [exUserA] [exBefore100] := by
  refine (((C8_list_readings [exBefore100] 1).2.2.2.2 [exUserA] ?_).1 exBefore100).2
    (List.mem_singleton.2 rfl)
  intro r hr
  rw [List.mem_singleton.1 hr]
  exact ⟨exUserA, List.mem_singleton.2 rfl, rfl⟩

/-! ## Profile update (src/app.py lines 193-227) -/

/-- Python str.strip(): whitespace removed from both ends of the
string. -/
def pyStrip (s : String) : String :=
  String.mk (((s.data.dropWhile Char.isWhitespace).reverse.dropWhile
    Char.isWhitespace).reverse)

/-- The update_profile form, src/app.py lines 198-209.  The four range
fields hold the result of int() on the raw form value: none models a
ValueError or a missing key, which the handler's try/except catches and
rolls back. -/
structure ProfileForm where
  name : Option String
  before_food_min : Option Int
  before_food_max : Option Int
  after_food_min : Option Int
  after_food_max : Option Int
  new_password : String
  confirm_password : String
deriving DecidableEq

/-- Outcome of the update_profile handler: the three flash messages of
src/app.py lines 214, 216, 219, and the except branch of line 225. -/
inductive UpdateOutcome
  | profileUpdated
  | profileAndPasswordUpdated
  | passwordMismatch
  | errorRolledBack
deriving DecidableEq

/-- The update_profile handler, src/app.py lines 193-227, as a function
to the committed user row: a nonempty stripped name is applied; the four
ranges are applied (an int() failure raises, is caught at line 223 and
rolled back, leaving the stored row unchanged); a nonempty stripped new
password must equal the stripped confirmation, and on mismatch the
handler returns at line 217 without reaching db.session.commit() at
line 221, so the pending in-memory attribute changes are discarded at
request teardown and the stored row is unchanged. -/
def update_profile (stored : User) (form : ProfileForm) : UpdateOutcome × User :=
  let u1 :=
    match form.name with
    | some n => if pyStrip n ≠ "" then { stored with name := some (pyStrip n) } else stored
    | none => stored
  match form.before_food_min, form.before_food_max,
      form.after_food_min, form.after_food_max with
  | some bmin, some bmax, some amin, some amax =>
    let u2 := { u1 with before_food_min := bmin, before_food_max := bmax,
                        after_food_min := amin, after_food_max := amax }
    let np := pyStrip form.new_password
    let cp := pyStrip form.confirm_password
    if np ≠ "" then
      if np == cp then
        (UpdateOutcome.profileAndPasswordUpdated,
          { u2 with password_hash := generate_password_hash np })
      else
        (UpdateOutcome.passwordMismatch, stored)
    else
      (UpdateOutcome.profileUpdated, u2)
  | _, _, _, _ => (UpdateOutcome.errorRolledBack, stored)

/-- C9: when a new password is provided and the confirmation does not
match, update_profile surfaces a user-visible error (the mismatch flash,
or the rollback flash when a range field also fails to parse) and
commits no change at all: the stored name, the four reference-range
integers and the password hash are unchanged; when the range fields
parse, the outcome is exactly the mismatch error. -/
theorem C9_password_mismatch (stored : User) (form : ProfileForm) :
    pyStrip form.new_password ≠ "" →
    pyStrip form.new_password ≠ pyStrip form.confirm_password →
      (update_profile stored form).2 = stored
      ∧ (update_profile stored form).1 ≠ UpdateOutcome.profileUpdated
      ∧ (update_profile stored form).1 ≠ UpdateOutcome.profileAndPasswordUpdated
      ∧ (update_profile stored form).2.name = stored.name
      ∧ (update_profile stored form).2.before_food_min = stored.before_food_min
      ∧ (update_profile stored form).2.before_food_max = stored.before_food_max
      ∧ (update_profile stored form).2.after_food_min = stored.after_food_min
      ∧ (update_profile stored form).2.after_food_max = stored.after_food_max
      ∧ (update_profile stored form).2.password_hash = stored.password_hash
      ∧ ((form.before_food_min.isSome ∧ form.before_food_max.isSome
          ∧ form.after_food_min.isSome ∧ form.after_food_max.isSome) →
        (update_profile stored form).1 = UpdateOutcome.passwordMismatch) := by
  intro hne hmm
  have hbe : (pyStrip form.new_password == pyStrip form.confirm_password) = false :=
    beq_eq_false_iff_ne.2 hmm
  have hres : update_profile stored form = (UpdateOutcome.passwordMismatch, stored)
      ∨ update_profile stored form = (UpdateOutcome.errorRolledBack, stored) := by
    rw [update_profile]
    rcases form.before_food_min with _ | bmin <;>
      rcases form.before_food_max with _ | bmax <;>
      rcases form.after_food_min with _ | amin <;>
      rcases form.after_food_max with _ | amax <;>
      simp [hne, hbe]
  have hsome : (form.before_food_min.isSome ∧ form.before_food_max.isSome
      ∧ form.after_food_min.isSome ∧ form.after_food_max.isSome) →
      (update_profile stored form).1 = UpdateOutcome.passwordMismatch := by
    rintro ⟨h1, h2, h3, h4⟩
    obtain ⟨bmin, e1⟩ := Option.isSome_iff_exists.1 h1
    obtain ⟨bmax, e2⟩ := Option.isSome_iff_exists.1 h2
    obtain ⟨amin, e3⟩ := Option.isSome_iff_exists.1 h3
    obtain ⟨amax, e4⟩ := Option.isSome_iff_exists.1 h4
    rw [update_profile, e1, e2, e3, e4]
    simp [hne, hbe]
  refine ⟨?_, ?_, ?_, ?_, ?_, ?_, ?_, ?_, ?_, hsome⟩ <;>
    rcases hres with h | h <;> simp [h]

/-- Form used by the C9 witness: well-formed ranges, mismatching
passwords. -/
def exForm : ProfileForm :=
  { name := some ("Sid"), before_food_min := some 70, before_food_max := some 120,
    after_food_min := some 100, after_food_max := some 160,
    new_password := exPwA, confirm_password := exPwB }

/-- Witness for C9: the mismatching form leaves the stored row exactly
as it was and reports the mismatch error. -/
theorem C9_password_mismatch_witness :
    (update_profile exUserA exForm).2 = exUserA
    ∧ (update_profile exUserA exForm).1 = UpdateOutcome.passwordMismatch := by
  have h := C9_password_mismatch exUserA exForm (by decide) (by decide)
  exact ⟨h.1, h.2.2.2.2.2.2.2.2.2 (by decide)⟩

end SakkaraStats
